import Mathlib

/-!
Verification of the dataset-catalog-api service (a Go HTTP gateway that
fetches paginated tourism dataset metadata from one upstream REST API and
re-serializes it as DCAT, ODPS v1.0, ODPS v3.0 (dev) and ODPS v3.1
documents, with a 5-minute in-memory page cache).

The definitions below are a shallow embedding of the Go sources:
  * `transformers/config.go` style constants and the `Dataset` model,
  * `handlers/common.go` (`ConvertDatasets`, `convertImageGallery`,
    the page cache, `fetchDatasets`, `fetchDatasetsResponse`,
    `searchDatasetByID`),
  * the four transformers (`ToDCAT`, `ToODPS`, `ToODPS30`, `ToODPS31`),
  * the gin handlers (`DcatGinHandler`, `ODPSGinHandler`,
    `ODPS30GinHandler`, `ODPS31GinHandler` and the two detail handlers).

Conventions of the embedding:
  * Go `interface{}` values are modelled by the loosely typed `JVal`
    tree, per the free-form metadata fields of the upstream schema.
  * Time instants are natural numbers (one unit = one second);
    `time.Now().Before(t)` is strict `<`, `5 * time.Minute` is `300`.
  * The network is a parameter: each handler receives an oracle
    describing what the upstream would answer, and the embedding records
    which upstream pages were actually requested, so that claims of the
    form "no upstream call is attempted" are statable.
  * HTTP responses are the `HttpOutcome` inductive; marshalling of the
    response body (JSON/YAML encoding) is an external collaborator and is
    not modelled beyond which body value is handed to it.
-/

namespace DatasetCatalog

/-- Update provenance block nested in the dataset metadata
(Go struct `MetaData` in the transformers package, json tag `_Meta`).
Field defaults are the Go zero values. -/
structure MetaData where
  id : String := ""
  type : String := ""
  source : String := ""
  reduced : Bool := false
  lastUpdate : String := ""
  updatedBy : String := ""
  updateSource : String := ""
deriving Repr, DecidableEq

/-- Licensing descriptor (Go struct `LicenseInfo`). -/
structure LicenseInfo where
  author : String := ""
  license : String := ""
  closedData : Bool := false
  licenseHolder : String := ""
deriving Repr, DecidableEq

/-- Loosely typed JSON-like value, standing for Go `interface{}` values
carried by the dataset model and built by the transformers.  Go float64
literals (only the fixed constants 99.9 and 95.0 occur) are represented
by the rational they denote in the source text.  The `meta` constructor
holds a raw `MetaData` struct placed directly into a document (as
`ToODPS31` does with `ds.Meta`). -/
inductive JVal where
  | null
  | str (v : String)
  | int (v : Int)
  | rat (v : ℚ)
  | bool (v : Bool)
  | arr (items : List JVal)
  | obj (fields : List (String × JVal))
  | meta (m : MetaData)

/-- One image-gallery entry (Go struct `ImageGalleryItem`).  Fields typed
`interface{}` in Go are `JVal`; `map[string]interface{}` fields are
association lists.  Defaults are the Go zero values. -/
structure ImageGalleryItem where
  width : JVal := .null
  height : JVal := .null
  license : String := ""
  validTo : JVal := .null
  imageUrl : String := ""
  copyRight : JVal := .null
  imageDesc : List (String × JVal) := []
  imageName : JVal := .null
  imageTags : JVal := .null
  validFrom : JVal := .null
  imageTitle : List (String × JVal) := []
  imageSource : String := ""
  isInGallery : JVal := .null
  imageAltText : List (String × JVal) := []
  listPosition : JVal := .null
  licenseHolder : JVal := .null

/-- The internal dataset record (Go struct `Dataset` in the transformers
package), one upstream item.  Field order and types follow the source;
`map[string]string` is an association list (Go map indexing returns the
zero value `""` for absent keys, see `lookupStr`).  Defaults are the Go
zero values. -/
structure Dataset where
  id : String := ""
  self : String := ""
  type : String := ""
  meta : MetaData := {}
  apiUrl : String := ""
  output : JVal := .null
  apiType : String := ""
  baseUrl : String := ""
  odhTags : List JVal := []
  odhType : JVal := .null
  sources : JVal := .null
  category : List String := []
  apiAccess : JVal := .null
  apiFilter : List String := []
  dataspace : String := ""
  odhTagIds : JVal := .null
  pathParam : List String := []
  shortname : String := ""
  deprecated : Bool := false
  lastChange : String := ""
  swaggerUrl : String := ""
  firstImport : String := ""
  licenseInfo : LicenseInfo := {}
  publishedOn : List JVal := []
  recordCount : JVal := .null
  dataProvider : List String := []
  imageGallery : List ImageGalleryItem := []
  apiDescription : List (String × String) := []

/-- Go map indexing on a `map[string]string`: the value for `k`, or the
zero value `""` when the key is absent. -/
def lookupStr (m : List (String × String)) (k : String) : String :=
  match m.find? (fun kv => kv.1 == k) with
  | some kv => kv.2
  | none => ""

/-! ### Organization-wide constants (transformers config)

`BaseURL` is read from the environment at startup with the default below;
environment/config loading is an external collaborator, so the embedding
uses the default value. -/

def BaseURL : String := "https://data-catalog.opendatahub.testingmachine.eu/"

def ContactEmail : String := "help@opendatahub.com"
def ContactPhoneNumber : String := "+390471066600"
def ContactWebsite : String := "https://opendatahub.com"
def OrganizationName : String := "Noi Spa"
def OrganizationURL : String := "https://noi.bz.it"
def BrandSlogan : String := "Develop digital solutions based on real data"
def PostalCode : String := "39100"
def StreetAddress : String := "Via Volta 13/A"
def AddressLocality : String := "Bolzano"
def AddressRegion : String := "Alto Adige"
def VatID : String := "IT02595720216"
def TaxID : String := "IT02595720216"

/-! ### handlers/common.go: dataset conversion layer -/

/-- `convertImageGallery` maps a slice of gallery items, rebuilding every
item field by field (handlers/common.go). -/
def convertImageGallery (src : List ImageGalleryItem) : List ImageGalleryItem :=
  src.map (fun item =>
    { width := item.width
      height := item.height
      license := item.license
      validTo := item.validTo
      imageUrl := item.imageUrl
      copyRight := item.copyRight
      imageDesc := item.imageDesc
      imageName := item.imageName
      imageTags := item.imageTags
      validFrom := item.validFrom
      imageTitle := item.imageTitle
      imageSource := item.imageSource
      isInGallery := item.isInGallery
      imageAltText := item.imageAltText
      listPosition := item.listPosition
      licenseHolder := item.licenseHolder })

/-- `ConvertDatasets` maps a slice of datasets into a slice of datasets,
rebuilding every record field by field and converting the nested image
gallery with `convertImageGallery` (handlers/common.go). -/
def ConvertDatasets (d : List Dataset) : List Dataset :=
  d.map (fun ds =>
    { id := ds.id
      self := ds.self
      type := ds.type
      meta := ds.meta
      apiUrl := ds.apiUrl
      output := ds.output
      apiType := ds.apiType
      baseUrl := ds.baseUrl
      odhTags := ds.odhTags
      odhType := ds.odhType
      sources := ds.sources
      category := ds.category
      apiAccess := ds.apiAccess
      apiFilter := ds.apiFilter
      dataspace := ds.dataspace
      odhTagIds := ds.odhTagIds
      pathParam := ds.pathParam
      shortname := ds.shortname
      deprecated := ds.deprecated
      lastChange := ds.lastChange
      swaggerUrl := ds.swaggerUrl
      firstImport := ds.firstImport
      licenseInfo := ds.licenseInfo
      publishedOn := ds.publishedOn
      recordCount := ds.recordCount
      dataProvider := ds.dataProvider
      imageGallery := convertImageGallery ds.imageGallery
      apiDescription := ds.apiDescription })

/-! ### handlers/common.go: page cache and upstream fetch -/

/-- Fixed upstream page size (`const pageSize = 10`). -/
def pageSize : Int := 10

/-- The cache TTL, `5 * time.Minute`, in seconds. -/
def fiveMinutes : Nat := 300

/-- One cache entry (Go struct `cacheItem`): the dataset list for a page
and its expiration instant. -/
structure cacheItem where
  data : List Dataset
  expiration : Nat

/-- The page cache `datasetCache`, a map from page number (Go `int`) to
`cacheItem`; absent keys are `none`. -/
def Cache : Type := Int → Option cacheItem

/-- The read side of `fetchDatasets`: under `cacheMutex.RLock`, look up
the page; return the stored list only when an entry is present and
`time.Now().Before(item.expiration)` holds, i.e. `now < expiration`
strictly; otherwise fall through as a miss. -/
def cacheLookup (cache : Cache) (page : Int) (now : Nat) : Option (List Dataset) :=
  match cache page with
  | some item => if now < item.expiration then some item.data else none
  | none => none

/-- The write side of `fetchDatasets`: under `cacheMutex.Lock`, the map
assignment `datasetCache[page] = cacheItem{data, time.Now().Add(5*time.Minute)}`,
which overwrites any previous binding of `page` and leaves every other
key unchanged. -/
def cacheStore (cache : Cache) (page : Int) (l : List Dataset) (now : Nat) : Cache :=
  fun q => if q = page then some ⟨l, now + fiveMinutes⟩ else cache q

/-- The decoded upstream envelope
`{TotalResults, TotalPages, CurrentPage, NextPage, Items}`. -/
structure Envelope where
  totalResults : Int := 0
  totalPages : Int := 0
  currentPage : Int := 0
  nextPage : String := ""
  items : List Dataset := []

/-- What one upstream GET can come to: a transport or JSON-decode failure
(both return `(nil, err)` in the source), or a decoded envelope. -/
inductive UpstreamOutcome where
  | failure
  | envelope (e : Envelope)

/-- The value of Go `([]transformers.Dataset, error)` as returned by
`fetchDatasets`: `(data, nil)`, `(nil, nil)` for "no data", or
`(nil, err)`. -/
inductive FetchResult where
  | ok (l : List Dataset)
  | noData
  | fetchError

/-- Observable effect of one `fetchDatasets` call: its return value, the
cache state after the call, and whether the upstream GET was issued. -/
structure FetchTrace where
  result : FetchResult
  cache' : Cache
  calledUpstream : Bool

/-- `fetchDatasets` (handlers/common.go): serve from the cache when the
entry for `page` is present and unexpired; otherwise issue the upstream
GET (`upstream` is its outcome), return the decode failure as an error,
return `(nil, nil)` without caching when the item list is empty, and
otherwise store the items with expiration `tFetch + fiveMinutes` and
return them.  `now` is the instant of the cache check, `tFetch` the
instant after the network call (the source calls `time.Now()` twice). -/
def fetchDatasets (page : Int) (now tFetch : Nat) (cache : Cache)
    (upstream : UpstreamOutcome) : FetchTrace :=
  match cacheLookup cache page now with
  | some l => ⟨.ok l, cache, false⟩
  | none =>
    match upstream with
    | .failure => ⟨.fetchError, cache, true⟩
    | .envelope e =>
      if e.items.isEmpty then ⟨.noData, cache, true⟩
      else ⟨.ok e.items, cacheStore cache page e.items tFetch, true⟩

/-! ### transformers/dcat_transformer.go -/

/-- The per-dataset entry built by the loop body of `ToDCAT`. -/
def dcatDatasetEntry (ds : Dataset) : JVal :=
  .obj [
    ("@type", .str "dcat:Dataset"),
    ("@id", .str ds.self),
    ("dct:identifier", .str ds.id),
    ("dct:type", .obj [("en", .str "dcat:Dataset")]),
    ("dct:title", .obj [("en", .str ds.shortname)]),
    ("dct:description", .obj [("en", .str ("Dataset type: " ++ ds.type))]),
    ("dct:issued", .str ds.firstImport),
    ("dct:modified", .str ds.lastChange),
    ("distribution", .arr [
      .obj [
        ("@type", .str "dcat:Distribution"),
        ("@id", .str ds.apiUrl),
        ("dct:identifier", .str ds.apiUrl),
        ("dct:type", .obj [("en", .str "dcat:Distribution")]),
        ("dct:title", .obj [("en", .str (ds.shortname ++ " API Endpoint"))]),
        ("dct:format", .str "application/json"),
        ("accessURL", .str ds.apiUrl)]])]

/-- `ToDCAT` maps a slice of datasets to a DCAT-AP catalog document.
`today` is `time.Now().Format("2006-01-02")`, the current date string,
passed explicitly since the embedding is pure. -/
def ToDCAT (today : String) (datasets : List Dataset) : JVal :=
  .obj [
    ("@context", .obj [
      ("dcat", .str "https://www.w3.org/ns/dcat#"),
      ("dct", .str "http://purl.org/dc/terms/"),
      ("foaf", .str "http://xmlns.com/foaf/0.1/"),
      ("xsd", .str "http://www.w3.org/2001/XMLSchema#"),
      ("dct:title", .obj [("@id", .str "dct:title"), ("@container", .str "@language")]),
      ("dct:description", .obj [("@id", .str "dct:description"), ("@container", .str "@language")]),
      ("dct:issued", .obj [("@id", .str "dct:issued"), ("@type", .str "xsd:date")]),
      ("dct:modified", .obj [("@id", .str "dct:modified"), ("@type", .str "xsd:date")])]),
    ("@type", .str "dcat:Catalog"),
    ("@id", .str (BaseURL ++ "api-catalog")),
    ("dct:type", .obj [("en", .str "dcat:Catalog")]),
    ("dct:identifier", .str "catalog-001"),
    ("dct:title", .obj [("en", .str (OrganizationName ++ " API Catalog"))]),
    ("dct:description", .obj [("en", .str ("A catalog of APIs provided by " ++ OrganizationName ++ "."))]),
    ("dct:issued", .str today),
    ("dct:modified", .str today),
    ("publisher", .obj [
      ("@type", .str "foaf:Organization"),
      ("dct:identifier", .str "org-001"),
      ("dct:title", .obj [("en", .str OrganizationName)]),
      ("homepage", .str OrganizationURL)]),
    ("dataset", .arr (datasets.map dcatDatasetEntry))]

/-! ### transformers/odps_transformer.go (ODPS v1.0) -/

/-- The per-dataset api entry built by the loop body of `ToODPS`. -/
def odpsApiEntry (ds : Dataset) : JVal :=
  .obj [
    ("id", .str ds.id),
    ("title", .str ds.shortname),
    ("description", .str ("Dataset type: " ++ ds.type)),
    ("version", .str "v1"),
    ("contact", .obj [
      ("name", .str "Support Open Data Hub"),
      ("email", .str ContactEmail)]),
    ("endpoints", .arr [
      .obj [
        ("url", .str ds.apiUrl),
        ("methods", .arr [.str "GET"]),
        ("formats", .arr [.str "application/json"]),
        ("documentation", .str ContactWebsite)]]),
    ("license", .obj [
      ("name", .str "CC BY 4.0"),
      ("url", .str "https://creativecommons.org/licenses/by/4.0/")])]

/-- `ToODPS` maps datasets to an ODPS v1.0 structure. -/
def ToODPS (datasets : List Dataset) : JVal :=
  .obj [
    ("odps", .str "1.0"),
    ("catalog", .obj [
      ("title", .str "API Catalog"),
      ("description", .str ("A catalog of APIs provided by " ++ OrganizationName ++ ".")),
      ("publisher", .obj [
        ("name", .str OrganizationName),
        ("url", .str OrganizationURL)]),
      ("apis", .arr (datasets.map odpsApiEntry))])]

/-! ### transformers: ODPS v3.0 (dev) single-record transformer -/

/-- `ToODPS30`: on an empty list the source returns `nil` (modelled as
`none`); otherwise it builds a single-product document from
`ds := datasets[0]`, the first dataset only. -/
def ToODPS30 (datasets : List Dataset) : Option JVal :=
  match datasets with
  | [] => none
  | ds :: _ =>
    some (.obj [
      ("schema", .str "https://opendataproducts.org/v3.0/schema/odps.yaml"),
      ("version", .str "dev"),
      ("product", .obj [
        ("en", .obj [
          ("name", .str ds.shortname),
          ("productID", .str ds.id),
          ("valueProposition", .str ("A tailored data product for " ++ ds.type ++ " data")),
          ("description", .str (lookupStr ds.apiDescription "en")),
          ("productSeries", .str (ds.shortname ++ " Series")),
          ("visibility", .str "public"),
          ("status", .str "active"),
          ("version", .str "v1.0"),
          ("categories", .arr (ds.category.map .str)),
          ("standards", .arr [.str "Standard-Dev"]),
          ("tags", .arr ds.odhTags),
          ("brandSlogan", .str BrandSlogan),
          ("type", .str ds.type),
          ("logoURL", .str ds.self),
          ("OutputFileFormats", .arr [.str "JSON", .str "YAML"]),
          ("useCases", .arr [
            .obj [("useCase", .obj [
              ("useCaseTitle", .str "Discover Insights - example"),
              ("useCaseDescription", .str "description example"),
              ("useCaseURL", .str (ds.apiUrl ++ "/usecase/insights"))])]])])]),
      ("recommendedDataProducts", .arr [
        .str (ds.apiUrl ++ "/recommended/1"),
        .str (ds.apiUrl ++ "/recommended/2")]),
      ("pricingPlans", .obj [
        ("en", .arr [
          .obj [
            ("name", .str "Free"),
            ("priceCurrency", .str "EUR"),
            ("price", .str "0"),
            ("billingDuration", .str "Monthly"),
            ("unit", .str "month"),
            ("maxTransactionQuantity", .str "1000"),
            ("offering", .arr [.str "Basic"])]])]),
      ("dataOps", .obj [
        ("data", .obj [
          ("schemaLocationURL", .str (ds.apiUrl ++ "/schema"))]),
        ("lineage", .obj [
          ("dataLineageTool", .str "LineageTool"),
          ("dataLineageOutput", .str "LineageInfo")]),
        ("infrastructure", .obj [
          ("containerTool", .str "Docker"),
          ("platform", .str "Kubernetes"),
          ("region", .str "eu-south-1"),
          ("storageTechnology", .str "S3"),
          ("storageType", .str "Object")]),
        ("build", .obj [
          ("format", .str "docker"),
          ("hashType", .str "SHA256"),
          ("checksum", .str "abc123"),
          ("signatureType", .str "PGP"),
          ("scriptURL", .str (ds.apiUrl ++ "/build.sh")),
          ("deploymentDocumentationURL", .str (ds.apiUrl ++ "/deploy"))])]),
      ("dataAccess", .obj [
        ("type", .str "REST"),
        ("authenticationMethod", .str "None"),
        ("specification", .str "OpenAPI"),
        ("format", .str "JSON"),
        ("documentationURL", .str (ds.apiUrl ++ "/docs"))]),
      ("SLA", .arr [
        .obj [
          ("dimension", .str "Availability"),
          ("displaytitle", .arr [.obj [("en", .str "Availability")]]),
          ("objective", .rat (999/10)),
          ("unit", .str "%"),
          ("monitoring", .obj [
            ("type", .str "Service Level"),
            ("reference", .str (ds.apiUrl ++ "/monitoring")),
            ("spec", .str "SLA Spec")])]]),
      ("support", .obj [
        ("phoneNumber", .str ContactPhoneNumber),
        ("phoneServiceHours", .str "9-5"),
        ("email", .str ContactEmail),
        ("emailServiceHours", .str "9-5"),
        ("documentationURL", .str ds.swaggerUrl)]),
      ("dataQuality", .arr [
        .obj [
          ("dimension", .str "Accuracy"),
          ("displaytitle", .arr [.obj [("en", .str "Accuracy")]]),
          ("objective", .rat 95),
          ("unit", .str "%"),
          ("monitoring", .obj [
            ("type", .str "Quality"),
            ("reference", .str (ds.apiUrl ++ "/quality")),
            ("spec", .str "Quality Spec")])]]),
      ("license", .obj [
        ("scope", .obj [
          ("definition", .str "Full access"),
          ("language", .str "en"),
          ("restrictions", .str "None"),
          ("geographicalArea", .arr [.str "Global"]),
          ("permanent", .bool true),
          ("exclusive", .bool false),
          ("rights", .arr [.str "Read", .str "Write"])]),
        ("termination", .obj [
          ("terminationConditions", .str "Violation of terms"),
          ("continuityConditions", .str "N/A")]),
        ("governance", .obj [
          ("ownership", .str OrganizationName),
          ("damages", .str "None"),
          ("confidentiality", .str "High"),
          ("applicableLaws", .str "GDPR"),
          ("warranties", .str "None"),
          ("audit", .str "Annual"),
          ("forceMajeure", .str "Standard")])]),
      ("dataHolder", .obj [
        ("taxID", .str TaxID),
        ("vatID", .str VatID),
        ("businessDomain", .str "Data"),
        ("logoURL", .str ds.self),
        ("description", .str BrandSlogan),
        ("URL", .str ds.self),
        ("telephone", .str ContactPhoneNumber),
        ("streetAddress", .str StreetAddress),
        ("postalCode", .str PostalCode),
        ("addressRegion", .str AddressRegion),
        ("addressLocality", .str AddressLocality),
        ("addressCountry", .str "IT"),
        ("aggregateRating", .str "5 stars"),
        ("ratingCount", .int 100),
        ("slogan", .str BrandSlogan),
        ("parentOrganization", .str OrganizationName)])])

/-! ### transformers/odps31_transformer.go -/

/-- `ToODPS31`: on an empty list the source returns `nil` (modelled as
`none`); otherwise it builds a single-product document from
`ds := datasets[0]`, the first dataset only. -/
def ToODPS31 (datasets : List Dataset) : Option JVal :=
  match datasets with
  | [] => none
  | ds :: _ =>
    some (.obj [
      ("schema", .str "https://opendataproducts.org/v3.1/schema/odps.yaml"),
      ("version", .str "3.1"),
      ("product", .obj [
        ("SLA", .arr [
          .obj [
            ("dimension", .str "Availability"),
            ("displaytitle", .arr [.obj [("en", .str "Availability")]]),
            ("monitoring", .obj [
              ("reference", .str (ds.self ++ "/monitoring")),
              ("spec", .str "SLA Spec"),
              ("type", .str "Service Level")]),
            ("objective", .rat (999/10)),
            ("unit", .str "%")]]),
        ("dataAccess", .obj [
          ("authenticationMethod", .str "None"),
          ("documentationURL", .str ds.swaggerUrl),
          ("format", .str "JSON"),
          ("specification", .str "OpenAPI"),
          ("type", .str "REST")]),
        ("dataHolder", .obj [
          ("URL", .str ds.self),
          ("addressCountry", .str "IT"),
          ("addressLocality", .str AddressLocality),
          ("addressRegion", .str AddressRegion),
          ("aggregateRating", .str "5 stars"),
          ("businessDomain", .str "Data"),
          ("description", .str BrandSlogan),
          ("logoURL", .str ds.self),
          ("parentOrganization", .str OrganizationName),
          ("postalCode", .str PostalCode),
          ("ratingCount", .int 100),
          ("slogan", .str BrandSlogan),
          ("streetAddress", .str StreetAddress),
          ("taxID", .str TaxID),
          ("telephone", .str ContactPhoneNumber),
          ("vatID", .str VatID)]),
        ("dataOps", .obj [
          ("build", .obj [
            ("checksum", .str "abc123"),
            ("deploymentDocumentationURL", .str (ds.self ++ "/deploy")),
            ("format", .str "docker"),
            ("hashType", .str "SHA256"),
            ("scriptURL", .str (ds.self ++ "/build.sh")),
            ("signatureType", .str "PGP")]),
          ("data", .obj [
            ("schemaLocationURL", .str (ds.self ++ "/schema"))]),
          ("infrastructure", .obj [
            ("containerTool", .str "Docker"),
            ("platform", .str "Kubernetes"),
            ("region", .str "eu-south-1"),
            ("storageTechnology", .str "S3"),
            ("storageType", .str "Object")]),
          ("lineage", .obj [
            ("dataLineageOutput", .str "LineageInfo"),
            ("dataLineageTool", .str "LineageTool")])]),
        ("dataQuality", .arr [
          .obj [
            ("dimension", .str "Accuracy"),
            ("displaytitle", .arr [.obj [("en", .str "Accuracy")]]),
            ("monitoring", .obj [
              ("reference", .str (ds.self ++ "/quality")),
              ("spec", .str "Quality Spec"),
              ("type", .str "Quality")]),
            ("objective", .rat 95),
            ("unit", .str "%")]]),
        ("en", .obj [
          ("OutputFileFormats", .arr [.str "JSON", .str "YAML"]),
          ("brandSlogan", .str BrandSlogan),
          ("categories", .arr (ds.category.map .str)),
          ("description", .str (lookupStr ds.apiDescription "en")),
          ("logoURL", .str ds.self),
          ("name", .str ds.shortname),
          ("productID", .str ds.id),
          ("productSeries", .str (ds.shortname ++ " Series")),
          ("standards", .arr [.str "Standard-Dev"]),
          ("status", .str "active"),
          ("tags", .arr []),
          ("type", .str ds.type),
          ("useCases", .arr [
            .obj [("useCase", .obj [
              ("useCaseTitle", .str "Discover Insights - example"),
              ("useCaseDescription", .str "description example"),
              ("useCaseURL", .str (ds.apiUrl ++ "/usecase/insights"))])]]),
          ("valueProposition", .str ("A tailored data product for " ++ ds.type ++ " data")),
          ("version", .str "v1.0"),
          ("visibility", .str "public")]),
        ("license", .obj [
          ("governance", .obj [
            ("applicableLaws", .str "GDPR"),
            ("audit", .str "Annual"),
            ("confidentiality", .str "High"),
            ("damages", .str "None"),
            ("forceMajeure", .str "Standard"),
            ("ownership", .str OrganizationName),
            ("warranties", .str "None")]),
          ("scope", .obj [
            ("definition", .str "Full access"),
            ("exclusive", .bool false),
            ("geographicalArea", .arr [.str "Global"]),
            ("language", .str "en"),
            ("permanent", .bool true),
            ("restrictions", .str "None"),
            ("rights", .arr [.str "Read", .str "Write"])]),
          ("termination", .obj [
            ("continuityConditions", .str "N/A"),
            ("terminationConditions", .str "Violation of terms")])]),
        ("pricingPlans", .obj [
          ("en", .arr [
            .obj [
              ("billingDuration", .str "Monthly"),
              ("maxTransactionQuantity", .str "1000"),
              ("name", .str "Free"),
              ("offering", .arr [.str "Basic"]),
              ("price", .str "0"),
              ("priceCurrency", .str "EUR"),
              ("unit", .str "month")]])]),
        ("recommendedDataProducts", .arr [
          .str (ds.self ++ "/recommended/1"),
          .str (ds.self ++ "/recommended/2")]),
        ("support", .obj [
          ("documentationURL", .str ds.swaggerUrl),
          ("email", .str ContactEmail),
          ("emailServiceHours", .str "9-5"),
          ("phoneNumber", .str ContactPhoneNumber),
          ("phoneServiceHours", .str "9-5")])]),
      ("details", .obj [
        ("summary", .str ds.shortname),
        ("description", .str (lookupStr ds.apiDescription "en")),
        ("language", .str "en"),
        ("metadata", .meta ds.meta)]),
      ("dct:issued", .str ds.firstImport),
      ("dct:modified", .str ds.lastChange)])

/-! ### handlers: upstream list/detail fetch without cache -/

/-- What `fetchDatasetsResponse` can come to, matching its Go return
`(*envelope, error)`: `(nil, err)`, `(nil, nil)` when the decoded item
list is empty, or the full envelope. -/
inductive FetchRespResult where
  | err
  | empty
  | ok (e : Envelope)

/-- `fetchDatasetsResponse` (handlers/common.go): one upstream GET for a
page, no caching; a transport or decode failure is an error, an envelope
with an empty item list is returned as `(nil, nil)`. -/
def fetchDatasetsResponse (u : UpstreamOutcome) : FetchRespResult :=
  match u with
  | .failure => .err
  | .envelope e => if e.items.isEmpty then .empty else .ok e

/-- What the upstream detail GET `MetaData/{id}` can come to: transport
failure, HTTP 404, decode failure, or a decoded dataset. -/
inductive DetailOutcome where
  | failure
  | notFound404
  | decodeError
  | ok (d : Dataset)

/-- `searchDatasetByID` (handlers/common.go): fetch the dataset detail
for an id; every failure mode (transport error, 404, decode error) is
collapsed into `nil`, i.e. `none`. -/
def searchDatasetByID (u : DetailOutcome) : Option Dataset :=
  match u with
  | .failure => none
  | .notFound404 => none
  | .decodeError => none
  | .ok d => some d

/-! ### handlers: request parsing and responses -/

/-- `strconv.Atoi`: optional single leading sign followed by at least one
decimal digit; anything else is an error. -/
def atoi (s : String) : Option Int :=
  let signed : Int × List Char :=
    match s.data with
    | '-' :: rest => (-1, rest)
    | '+' :: rest => (1, rest)
    | cs => (1, cs)
  if signed.2.isEmpty then none
  else if signed.2.all Char.isDigit then
    some (signed.1 * ((signed.2.foldl (fun acc c => acc * 10 + (c.toNat - '0'.toNat)) 0 : Nat) : Int))
  else none

/-- `int(math.Ceil(float64(a) / float64(b)))` for integer `a` and
positive integer `b`: the ceiling of the exact quotient, via the floor
division of the negation. -/
def ceilDiv (a b : Int) : Int := -((-a).fdiv b)

/-- The response the framework delivers: status plus body (bodies are the
value handed to the JSON/YAML encoder; the encoders themselves are
external collaborators).  `nilPanic` marks a Go nil-pointer dereference
reached by a handler. -/
inductive HttpOutcome where
  | okJson (body : JVal)
  | okYaml (body : JVal)
  | notFound (msg : String)
  | badRequest (msg : String)
  | internalError (msg : String)
  | nilPanic

/-- True exactly on the "not found" outcome. -/
def HttpOutcome.isNotFound : HttpOutcome → Bool
  | .notFound _ => true
  | _ => false

/-- True exactly on the internal-error outcome. -/
def HttpOutcome.isInternalError : HttpOutcome → Bool
  | .internalError _ => true
  | _ => false

/-- Observable effect of one list-handler invocation: the response and
the list of upstream pages requested during the call (empty when no
upstream GET was issued). -/
structure HandlerTrace where
  response : HttpOutcome
  upstreamPages : List Int

/-! ### handlers: the gin list and detail handlers

Each handler receives the raw `page` and `format` query strings exactly
as `c.Query` yields them (`""` when absent) and an oracle
`upstream : Int → UpstreamOutcome` giving the upstream answer per page
number. -/

/-- `DcatGinHandler` (handlers/dcat_handler.go): a nonempty `page` query
that is non-numeric or not positive is rejected with 404 before any
fetch; otherwise the page (default 1) is fetched, errors and empty
results give 404, and the DCAT document is returned (JSON by default,
YAML on `format=yaml`). -/
def DcatGinHandler (today : String) (pageStr format : String)
    (upstream : Int → UpstreamOutcome) : HandlerTrace :=
  let page? : Option Int :=
    if pageStr = "" then some 1
    else
      match atoi pageStr with
      | some p => if p > 0 then some p else none
      | none => none
  match page? with
  | none => ⟨.notFound "No data found", []⟩
  | some page =>
    match fetchDatasetsResponse (upstream page) with
    | .err => ⟨.notFound "No data found", [page]⟩
    | .empty => ⟨.notFound "No data found", [page]⟩
    | .ok e =>
      let output := ToDCAT today (ConvertDatasets e.items)
      if format = "yaml" then ⟨.okYaml output, [page]⟩
      else ⟨.okJson output, [page]⟩

/-- `ODPSGinHandler` (handlers/odps_handler.go): fetches page 1
unconditionally — the request's `page` query string is never consulted —
then 404 on error or empty data, else the ODPS v1.0 document as JSON.
The handler goes through the 5-minute page cache (`fetchDatasets`), so
the trace carries the cache state and clock instants. -/
def ODPSGinHandler (_pageStr : String) (cache : Cache) (now tFetch : Nat)
    (upstream : Int → UpstreamOutcome) : HandlerTrace × Cache :=
  let t := fetchDatasets 1 now tFetch cache (upstream 1)
  let pages : List Int := if t.calledUpstream then [1] else []
  match t.result with
  | .ok ds =>
    if ds.isEmpty then (⟨.notFound "No data found", pages⟩, t.cache')
    else (⟨.okJson (ToODPS (ConvertDatasets ds)), pages⟩, t.cache')
  | .noData => (⟨.notFound "No data found", pages⟩, t.cache')
  | .fetchError => (⟨.notFound "No data found", pages⟩, t.cache')

/-- `ODPS30GinHandler` (handlers/odps30_handler.go): a nonempty `page`
query that is non-numeric or not positive is rejected with 404 before
any fetch; a fetch error gives 500 "Error fetching data"; an empty
result leaves `resp` nil and the subsequent `resp.TotalResults` access
is a nil dereference; a page beyond `ceil(totalResults/10)` gives 404;
otherwise the endpoint list document is returned (YAML by default). -/
def ODPS30GinHandler (pageStr format : String)
    (upstream : Int → UpstreamOutcome) : HandlerTrace :=
  let page? : Option Int :=
    if pageStr = "" then some 1
    else
      match atoi pageStr with
      | some p => if p > 0 then some p else none
      | none => none
  match page? with
  | none => ⟨.notFound "No data found", []⟩
  | some page =>
    match fetchDatasetsResponse (upstream page) with
    | .err => ⟨.internalError "Error fetching data", [page]⟩
    | .empty => ⟨.nilPanic, [page]⟩
    | .ok e =>
      let totalPages := ceilDiv e.totalResults pageSize
      if page > totalPages then ⟨.notFound "No data found", [page]⟩
      else
        let endpoints := e.items.map (fun ds => JVal.obj [
          ("uuid", .str ds.id),
          ("datasetName", .str ds.shortname),
          ("originalUrl", .str ds.apiUrl),
          ("url", .str (BaseURL ++ "odps30/" ++ ds.id))])
        let output := JVal.obj [
          ("current_page", .int e.currentPage),
          ("total_pages", .int totalPages),
          ("totalRecord", .int e.totalResults),
          ("endpoints", .arr endpoints)]
        if format = "json" then ⟨.okJson output, [page]⟩
        else ⟨.okYaml output, [page]⟩

/-- `ODPS31GinHandler` (handlers/odps31_handler.go): the `page` query is
parsed with no rejection branch — when it is non-numeric or not positive
the handler silently keeps `page = 1` and continues — then errors and
empty results give 404, and otherwise the endpoint list document is
returned (YAML by default). -/
def ODPS31GinHandler (pageStr format : String)
    (upstream : Int → UpstreamOutcome) : HandlerTrace :=
  let page : Int :=
    if pageStr = "" then 1
    else
      match atoi pageStr with
      | some p => if p > 0 then p else 1
      | none => 1
  match fetchDatasetsResponse (upstream page) with
  | .err => ⟨.notFound "No data found", [page]⟩
  | .empty => ⟨.notFound "No data found", [page]⟩
  | .ok e =>
    let totalPages := ceilDiv e.totalResults pageSize
    let endpoints := e.items.map (fun ds => JVal.obj [
      ("uuid", .str ds.id),
      ("datasetName", .str ds.shortname),
      ("originalUrl", .str ds.apiUrl),
      ("url", .str (BaseURL ++ "odps31/" ++ ds.id))])
    let output := JVal.obj [
      ("current_page", .int e.currentPage),
      ("total_pages", .int totalPages),
      ("endpoints", .arr endpoints)]
    if format = "json" then ⟨.okJson output, [page]⟩
    else ⟨.okYaml output, [page]⟩

/-- `ODPS30DetailGinHandler`: empty path id gives 400; a failed detail
lookup (any failure mode of `searchDatasetByID`) gives 404; otherwise
the ODPS v3.0 document for the single found dataset (YAML by default;
a `nil` document would be encoded as null, `JVal.null`). -/
def ODPS30DetailGinHandler (uuid format : String) (u : DetailOutcome) : HttpOutcome :=
  if uuid = "" then .badRequest "Missing dataset ID"
  else
    match searchDatasetByID u with
    | none => .notFound "Dataset not found"
    | some d =>
      let output := ToODPS30 (ConvertDatasets [d])
      let body := output.getD .null
      if format = "json" then .okJson body else .okYaml body

/-- `ODPS31DetailGinHandler`: empty path id gives 400; a failed detail
lookup gives 404; otherwise the ODPS v3.1 document for the single found
dataset (YAML by default). -/
def ODPS31DetailGinHandler (uuid format : String) (u : DetailOutcome) : HttpOutcome :=
  if uuid = "" then .badRequest "Missing dataset ID"
  else
    match searchDatasetByID u with
    | none => .notFound "Dataset not found"
    | some d =>
      let output := ToODPS31 (ConvertDatasets [d])
      let body := output.getD .null
      if format = "json" then .okJson body else .okYaml body

/-- Field access on an object value, used to state properties of the
documents the transformers build. -/
def getField (v : JVal) (k : String) : Option JVal :=
  match v with
  | .obj fields =>
    match fields.find? (fun kv => kv.1 == k) with
    | some kv => some kv.2
    | none => none
  | _ => none

/-! ### Concrete fixtures used by witnesses and counterexamples -/

/-- A concrete dataset (all unlisted fields are the Go zero values). -/
def dEx : Dataset :=
  { id := "ds1"
    self := "https://example.org/ds1"
    type := "alpine"
    shortname := "Dataset One"
    apiUrl := "https://example.org/api/ds1" }

/-- A concrete one-item upstream envelope. -/
def eEx : Envelope :=
  { totalResults := 1, totalPages := 1, currentPage := 1, items := [dEx] }

/-- A concrete zero-item upstream envelope. -/
def eEmptyEx : Envelope :=
  { totalResults := 0, totalPages := 0, currentPage := 1, items := [] }

/-- An upstream that answers every page with the one-item envelope. -/
def uEx : Int → UpstreamOutcome := fun _ => .envelope eEx

/-- An upstream whose every call fails at the transport level. -/
def failUpstream : Int → UpstreamOutcome := fun _ => .failure

/-- The empty cache. -/
def emptyCache : Cache := fun _ => none

/-- A cache holding page 1 with expiration instant 100. -/
def cEx : Cache := fun p => if p = 1 then some ⟨[dEx], 100⟩ else none

/-! ### Claim theorems -/

/-- On a cache miss, a failing upstream GET is returned as an error and the
cache is untouched. -/
theorem fetchDatasets_miss_failure (page : Int) (now tFetch : Nat) (cache : Cache)
    (hmiss : cacheLookup cache page now = none) :
    fetchDatasets page now tFetch cache .failure = ⟨.fetchError, cache, true⟩ := by
  unfold fetchDatasets
  rw [hmiss]

/-- On a cache miss, a decoded envelope either yields the no-data result
(empty item list, cache untouched) or stores and returns the items. -/
theorem fetchDatasets_miss_envelope (page : Int) (now tFetch : Nat) (cache : Cache)
    (e : Envelope) (hmiss : cacheLookup cache page now = none) :
    fetchDatasets page now tFetch cache (.envelope e) =
      if e.items.isEmpty then ⟨.noData, cache, true⟩
      else ⟨.ok e.items, cacheStore cache page e.items tFetch, true⟩ := by
  unfold fetchDatasets
  rw [hmiss]

/-- Claim C1: for every page and cache state, the cache lookup returns the
stored dataset list iff an entry for the page is present and the current
time is strictly before its stored expiration; in every other case the
lookup is a miss — the stale entry is not returned and `fetchDatasets`
issues the upstream fetch instead. -/
theorem cache_lookup_ttl (page : Int) (now tFetch : Nat) (cache : Cache)
    (u : UpstreamOutcome) :
    (∀ l, cacheLookup cache page now = some l ↔
        ∃ item, cache page = some item ∧ now < item.expiration ∧ item.data = l)
    ∧ (∀ l, cacheLookup cache page now = some l →
        fetchDatasets page now tFetch cache u = ⟨.ok l, cache, false⟩)
    ∧ (cacheLookup cache page now = none →
        (fetchDatasets page now tFetch cache u).calledUpstream = true) := by
  refine ⟨fun l => ?_, fun l h => ?_, fun h => ?_⟩
  · constructor
    · intro h
      cases hc : cache page with
      | none => simp [cacheLookup, hc] at h
      | some item =>
        by_cases ht : now < item.expiration
        · refine ⟨item, rfl, ht, ?_⟩
          simpa [cacheLookup, hc, ht] using h
        · simp [cacheLookup, hc, ht] at h
    · rintro ⟨item, hc, ht, hd⟩
      simp [cacheLookup, hc, ht, hd]
  · unfold fetchDatasets
    rw [h]
  · cases u with
    | failure => rw [fetchDatasets_miss_failure page now tFetch cache h]
    | envelope e =>
      rw [fetchDatasets_miss_envelope page now tFetch cache e h]
      by_cases he : e.items.isEmpty <;> simp [he]

/-- Witness for C1: a concrete unexpired entry (now 50 < expiration 100) is
served from the cache without touching the upstream. -/
theorem cache_lookup_ttl_witness :
    cacheLookup cEx 1 50 = some [dEx]
    ∧ fetchDatasets 1 50 60 cEx .failure = ⟨.ok [dEx], cEx, false⟩ :=
  ⟨rfl, (cache_lookup_ttl 1 50 60 cEx .failure).2.1 [dEx] rfl⟩

/-- Claim C2: the cache store replaces whatever entry existed for the page
with a new entry holding exactly the stored list and expiration equal to the
store instant plus 5 minutes, leaving every other key unchanged; and on a
cache miss with a non-empty fetched item list, `fetchDatasets` performs
exactly this store of the fetched list. -/
theorem cache_store_overwrites (page : Int) (tFetch : Nat) (cache : Cache)
    (l : List Dataset) :
    cacheStore cache page l tFetch page = some ⟨l, tFetch + fiveMinutes⟩
    ∧ (∀ q, q ≠ page → cacheStore cache page l tFetch q = cache q)
    ∧ (∀ now e, cacheLookup cache page now = none → Envelope.items e = l →
        l ≠ [] →
        (fetchDatasets page now tFetch cache (.envelope e)).cache' =
          cacheStore cache page l tFetch
        ∧ (fetchDatasets page now tFetch cache (.envelope e)).result = .ok l) := by
  refine ⟨by simp [cacheStore], fun q hq => by simp [cacheStore, hq], ?_⟩
  intro now e hmiss hitems hne
  subst hitems
  have hf : e.items.isEmpty = false := by
    cases h : e.items with
    | nil => exact absurd h hne
    | cons a t => rfl
  rw [fetchDatasets_miss_envelope page now tFetch cache e hmiss, hf]
  exact ⟨rfl, rfl⟩

/-- Witness for C2: storing page 1 at instant 50 creates the entry expiring
at 350, and a concrete miss-then-fetch performs that store. -/
theorem cache_store_overwrites_witness :
    cacheStore emptyCache 1 [dEx] 50 1 = some ⟨[dEx], 50 + fiveMinutes⟩
    ∧ (fetchDatasets 1 10 50 emptyCache (.envelope eEx)).cache' =
        cacheStore emptyCache 1 [dEx] 50 :=
  ⟨(cache_store_overwrites 1 50 emptyCache [dEx]).1,
   ((cache_store_overwrites 1 50 emptyCache [dEx]).2.2 10 eEx rfl rfl
      (List.cons_ne_nil dEx [])).1⟩

/-- Claim C3: when the upstream fetch succeeds but the envelope's item list
is empty, `fetchDatasets` returns the explicit no-data signal (not an
error), leaves the cache completely unchanged, and any later lookup of the
page still misses, so the next request re-hits the upstream. -/
theorem no_negative_caching (page : Int) (now tFetch : Nat) (cache : Cache)
    (e : Envelope) (hmiss : cacheLookup cache page now = none)
    (hempty : e.items = []) :
    fetchDatasets page now tFetch cache (.envelope e) = ⟨.noData, cache, true⟩
    ∧ (∀ now2, now ≤ now2 →
        cacheLookup ((fetchDatasets page now tFetch cache (.envelope e)).cache')
          page now2 = none) := by
  have hIsEmpty : e.items.isEmpty = true := by rw [hempty]; rfl
  have hmain : fetchDatasets page now tFetch cache (.envelope e)
      = ⟨.noData, cache, true⟩ := by
    rw [fetchDatasets_miss_envelope page now tFetch cache e hmiss, hIsEmpty]
    rfl
  refine ⟨hmain, fun now2 h2 => ?_⟩
  rw [hmain]
  cases hc : cache page with
  | none => simp [cacheLookup, hc]
  | some item =>
    have ht : ¬ now < item.expiration := by
      intro hlt
      simp [cacheLookup, hc, hlt] at hmiss
    have ht2 : ¬ now2 < item.expiration := fun hlt => ht (lt_of_le_of_lt h2 hlt)
    simp [cacheLookup, hc, ht2]

/-- Witness for C3: a concrete empty fetch at page 3 returns no-data and
leaves the empty cache empty. -/
theorem no_negative_caching_witness :
    fetchDatasets 3 10 20 emptyCache (.envelope eEmptyEx)
      = ⟨.noData, emptyCache, true⟩ :=
  (no_negative_caching 3 10 20 emptyCache eEmptyEx rfl rfl).1

/-- Claim C4: `ToDCAT` applied to the empty dataset list returns a catalog
whose `dataset` field is the empty list (never an error), while `ToODPS30`
and `ToODPS31` applied to the empty list return the explicit absence signal
`none`, distinguishable from the `some` document produced for every
non-empty input. -/
theorem empty_list_transformer_policy :
    (∀ today, getField (ToDCAT today []) "dataset" = some (.arr []))
    ∧ ToODPS30 [] = none
    ∧ ToODPS31 [] = none
    ∧ (∀ d rest, (ToODPS30 (d :: rest)).isSome = true
        ∧ (ToODPS31 (d :: rest)).isSome = true) :=
  ⟨fun _ => rfl, rfl, rfl, fun _ _ => ⟨rfl, rfl⟩⟩

/-- Claim C7: for every non-empty dataset list, the ODPS v3.0 and v3.1
documents depend only on the first element — the output on `d :: rest`
equals the output on the singleton `[d]`, whatever `rest` holds. -/
theorem odps_first_dataset_only (d : Dataset) (rest : List Dataset) :
    ToODPS30 (d :: rest) = ToODPS30 [d]
    ∧ ToODPS31 (d :: rest) = ToODPS31 [d] :=
  ⟨rfl, rfl⟩

/-- Each rebuilt image-gallery item equals the original, so the gallery
conversion is the identity. -/
theorem convertImageGallery_id (g : List ImageGalleryItem) :
    convertImageGallery g = g := by
  induction g with
  | nil => rfl
  | cons a t ih =>
    show a :: convertImageGallery t = a :: t
    rw [ih]

/-- Claim C10: `ConvertDatasets` is a structure-preserving identity — the
output has the same length and order as the input and every field of every
element, including each nested image-gallery item rebuilt by
`convertImageGallery`, is copied unchanged. -/
theorem convertDatasets_structure_preserving (l : List Dataset) :
    ConvertDatasets l = l
    ∧ (ConvertDatasets l).length = l.length
    ∧ (∀ g, convertImageGallery g = g) := by
  have h : ∀ m : List Dataset, ConvertDatasets m = m := by
    intro m
    induction m with
    | nil => rfl
    | cons a t ih =>
      simp only [ConvertDatasets, List.map_cons] at ih ⊢
      rw [convertImageGallery_id a.imageGallery, ih]
  exact ⟨h l, by rw [h l], convertImageGallery_id⟩

/-- Claim C5 fails on the code: the ODPS v3.1 list handler, given
`page=0`, does not answer "not found" — it silently treats the request as
page 1 and performs the upstream network call, returning the page-1 data. -/
theorem odps31_invalid_page_falls_through :
    (ODPS31GinHandler "0" "" uEx).upstreamPages = [1]
    ∧ (ODPS31GinHandler "0" "" uEx).response.isNotFound = false :=
  ⟨rfl, rfl⟩

/-- Claim C6 fails on the code: with the upstream transport failing, the
DCAT list handler answers "No data found" — the not-found outcome, not an
internal error. -/
theorem dcat_upstream_failure_not_internal :
    (DcatGinHandler "2025-01-01" "" "" failUpstream).response
        = .notFound "No data found"
    ∧ (DcatGinHandler "2025-01-01" "" "" failUpstream).response.isInternalError
        = false :=
  ⟨rfl, rfl⟩

/-- Claim C6 amended: an upstream transport failure is surfaced as an
internal error only by the ODPS v3.0 list handler; the DCAT and ODPS v3.1
list handlers and the ODPS v1.0 handler surface it as "not found", and the
detail handlers also answer "not found" because `searchDatasetByID`
collapses every failure mode to absence. -/
theorem upstream_failure_surfacing (today fmt : String) :
    (ODPS30GinHandler "" fmt failUpstream).response
        = .internalError "Error fetching data"
    ∧ (DcatGinHandler today "" fmt failUpstream).response
        = .notFound "No data found"
    ∧ (ODPS31GinHandler "" fmt failUpstream).response
        = .notFound "No data found"
    ∧ ((ODPSGinHandler "" emptyCache 0 0 failUpstream).1).response
        = .notFound "No data found"
    ∧ searchDatasetByID .failure = none
    ∧ ODPS30DetailGinHandler "some-id" fmt .failure = .notFound "Dataset not found"
    ∧ ODPS31DetailGinHandler "some-id" fmt .failure = .notFound "Dataset not found" :=
  ⟨rfl, rfl, rfl, rfl, rfl, rfl, rfl⟩

/-- Claim C8 fails on the code: the ODPS v1.0 list handler ignores the
caller's page parameter — asked for page 2 (with an empty cache, so the
fetch does reach the upstream) it requests upstream page 1, not page 2. -/
theorem odps_page_param_ignored :
    ((ODPSGinHandler "2" emptyCache 0 0 uEx).1).upstreamPages = [1]
    ∧ ((ODPSGinHandler "2" emptyCache 0 0 uEx).1).upstreamPages ≠ [2] :=
  ⟨rfl, by decide⟩

end DatasetCatalog
